import Mathlib

/-!
Shallow embedding of the wikijs-mcp-server core (TypeScript sources under
`src/`): the Wiki.js GraphQL client (`src/services/client.ts`), the seven
MCP tool handlers (`src/tools/*.ts`), the zod input schemas
(`src/schemas/index.ts`) and the centralized error handler
(`src/services/error-handler.ts`).

Modelling conventions:
* The remote Wiki.js instance is modelled by a `World` value holding the
  stored pages artifact; each client method is a pure function of the
  `World` that also reports the remote call it issued, so that handlers
  return both their response envelope and the exact trace of remote calls.
* JavaScript `undefined`/absent optional fields are `Option.none`;
  `x ?? y` is `Option.getD`; JavaScript truthiness of `number | undefined`
  and `string | undefined` values is made explicit by `jsNat`/`jsStr`,
  which map the falsy values `0` and `""` to `none`.
* `JSON.stringify` payloads are modelled as values of a small `Json` AST;
  the handlers build exactly the objects the source serializes.
* The model remote always reports `succeeded = true` for mutations; the
  gateway-level failure modes (GraphQL errors, empty body, timeout) are
  modelled separately by `gatewayQuery` over a `FetchOutcome`, mirroring
  `WikiJsClient.query`.
-/

/-- A JSON value, modelling the objects the handlers pass to
`JSON.stringify`. -/
inductive Json where
  | null : Json
  | bool : Bool → Json
  | num : Nat → Json
  | str : String → Json
  | arr : List Json → Json
  | obj : List (String × Json) → Json
deriving Repr

/-- JavaScript truthiness for a `number | undefined` value: `undefined`
and `0` are falsy. -/
def jsNat (o : Option Nat) : Option Nat :=
  match o with
  | none => none
  | some n => if n = 0 then none else some n

/-- JavaScript truthiness for a `string | undefined` value: `undefined`
and `""` are falsy. -/
def jsStr (o : Option String) : Option String :=
  match o with
  | none => none
  | some s => if s = "" then none else some s

/-- A page as stored by the remote Wiki.js instance (the union of the
fields the list query and the single-page queries can return; `content`
is nullable as in the `WikiPage` interface of `src/types.ts`). -/
structure StoredPage where
  id : Nat
  path : String
  title : String
  description : String
  content : Option String
  contentType : String
  isPublished : Bool
  locale : String
  createdAt : String
  updatedAt : String
  tags : List String
deriving Repr, DecidableEq

/-- The `WikiPage` shape returned by the single-page GraphQL queries
(`pages.single` / `pages.singleByPath` select no tags). -/
structure WikiPage where
  id : Nat
  path : String
  title : String
  description : String
  content : Option String
  contentType : String
  isPublished : Bool
  locale : String
  createdAt : String
  updatedAt : String
deriving Repr, DecidableEq

/-- The `WikiPageListItem` shape returned by the list query
(`pages.list` selects tags but no content). -/
structure WikiPageListItem where
  id : Nat
  path : String
  title : String
  description : String
  isPublished : Bool
  locale : String
  contentType : String
  createdAt : String
  updatedAt : String
  tags : List String
deriving Repr, DecidableEq

/-- A single full-text search hit (`SearchResult` in `src/types.ts`). -/
structure SearchResult where
  id : Nat
  title : String
  path : String
  description : String
  locale : String
deriving Repr, DecidableEq

/-- The remote search response (`SearchResponse` in `src/types.ts`). -/
structure SearchResponse where
  results : List SearchResult
  suggestions : List String
  totalHits : Nat
deriving Repr, DecidableEq

/-- The provider result envelope (`ApiResponseResult` in
`src/types.ts`). -/
structure ApiResponseResult where
  succeeded : Bool
  errorCode : Nat
  message : String
deriving Repr, DecidableEq

/-- The sparse parameter record of `WikiJsClient.updatePage`
(`UpdatePageParams` in `src/types.ts`): `none` models `null`/absent, and
a `none` field is omitted from the outgoing mutation. -/
structure UpdatePageParams where
  id : Nat
  content : Option String
  title : Option String
  description : Option String
  isPublished : Option Bool
  tags : Option (List String)
deriving Repr, DecidableEq

/-- The parameter record of `WikiJsClient.createPage`
(`CreatePageParams` in `src/types.ts`). -/
structure CreatePageParams where
  content : String
  description : String
  editor : String
  isPublished : Bool
  isPrivate : Bool
  locale : String
  path : String
  tags : List String
  title : String
deriving Repr, DecidableEq

/-- One remote GraphQL call issued by the client, as observed by the
remote system. -/
inductive RemoteCall where
  | fetchById (id : Nat)
  | fetchByPath (path locale : String)
  | listAll
  | search (query : String)
  | create (params : CreatePageParams)
  | update (params : UpdatePageParams)
  | delete (id : Nat)
  | move (id : Nat) (destinationPath destinationLocale : String)
deriving Repr, DecidableEq

/-- The state of the remote Wiki.js instance: its stored pages, the
response its search engine would produce for the query at hand, and the
id it would assign to a newly created page. -/
structure World where
  pages : List StoredPage
  searchResponse : SearchResponse
  nextId : Nat
deriving Repr

/-- `CHARACTER_LIMIT` from `src/constants.ts` (not shipped under `src/`;
its value is fixed by the `wikijs_get_page` tool description in
`src/tools/get-page.js`: "Content over 100,000 characters will be
truncated with a notice"). -/
def CHARACTER_LIMIT : Nat := 100000

/-- `DEFAULT_PAGE_LIMIT` from `src/constants.ts` (value fixed by the
`wikijs_list_pages` tool description: "default 50"). -/
def DEFAULT_PAGE_LIMIT : Nat := 50

/-- `MAX_PAGE_LIMIT` from `src/constants.ts` (value fixed by the
`wikijs_list_pages` tool description: "max 200"). -/
def MAX_PAGE_LIMIT : Nat := 200

/-- JavaScript `s.substring(0, n)` (on the character list of `s`). -/
def jsSubstring (s : String) (n : Nat) : String :=
  String.mk (s.data.take n)

/-- JavaScript `arr.slice(offset, offset + limit)`. -/
def jsSlice (l : List α) (offset limit : Nat) : List α :=
  (l.drop offset).take limit

/-- Projection of a stored page to the single-page query result
(`pages.single`/`pages.singleByPath` field selection). -/
def StoredPage.toWikiPage (p : StoredPage) : WikiPage :=
  { id := p.id, path := p.path, title := p.title,
    description := p.description, content := p.content,
    contentType := p.contentType, isPublished := p.isPublished,
    locale := p.locale, createdAt := p.createdAt,
    updatedAt := p.updatedAt }

/-- Projection of a stored page to the list query result (`pages.list`
field selection). -/
def StoredPage.toListItem (p : StoredPage) : WikiPageListItem :=
  { id := p.id, path := p.path, title := p.title,
    description := p.description, isPublished := p.isPublished,
    locale := p.locale, contentType := p.contentType,
    createdAt := p.createdAt, updatedAt := p.updatedAt,
    tags := p.tags }

/-- The truncation notice appended by `getPageById`
(`src/services/client.ts:140-142`). -/
def truncNoticeById (originalLength : Nat) : String :=
  "\n\n[Content truncated. Original length: " ++ toString originalLength ++
    " chars. Use path-based access for full content.]"

/-- The truncation notice appended by `getPageByPath`
(`src/services/client.ts:175-178`). -/
def truncNoticeByPath (originalLength : Nat) : String :=
  "\n\n[Content truncated. Original length: " ++ toString originalLength ++
    " chars]"

/-- The client-side truncation applied by both single-page fetches: when
the (truthy) content exceeds `CHARACTER_LIMIT` characters it is cut to
the first `CHARACTER_LIMIT` characters and a notice is appended. -/
def truncateContent (notice : Nat → String) (content : Option String) :
    Option String :=
  match content with
  | none => none
  | some c =>
      if c ≠ "" ∧ c.length > CHARACTER_LIMIT then
        some (jsSubstring c CHARACTER_LIMIT ++ notice c.length)
      else some c

/-- `WikiJsClient.getPageById` (`src/services/client.ts:115-146`) under a
well-behaved remote: looks the page up by id and truncates over-long
content for display. -/
def getPageById (w : World) (id : Nat) : Option WikiPage × RemoteCall :=
  let page := (w.pages.find? (fun p => p.id = id)).map StoredPage.toWikiPage
  let page :=
    page.map (fun p => { p with content := truncateContent truncNoticeById p.content })
  (page, .fetchById id)

/-- `WikiJsClient.getPageByPath` (`src/services/client.ts:151-182`):
looks the page up by (path, locale) and truncates over-long content. -/
def getPageByPath (w : World) (path locale : String) :
    Option WikiPage × RemoteCall :=
  let page :=
    (w.pages.find? (fun p => p.path = path ∧ p.locale = locale)).map
      StoredPage.toWikiPage
  let page :=
    page.map (fun p => { p with content := truncateContent truncNoticeByPath p.content })
  (page, .fetchByPath path locale)

/-- `WikiJsClient.listPages` (`src/services/client.ts:77-110`): fetches
the full listing, records its length as `total` BEFORE the locale
filter, filters by locale when one is given, then slices
`[offset, offset + limit)`. -/
def listPages (w : World) (locale : Option String) (limit offset : Nat) :
    (List WikiPageListItem × Nat) × RemoteCall :=
  let pages := w.pages.map StoredPage.toListItem
  let total := pages.length
  let pages :=
    match jsStr locale with
    | some loc => pages.filter (fun p => p.locale = loc)
    | none => pages
  let paginatedPages := jsSlice pages offset limit
  ((paginatedPages, total), .listAll)

/-- `WikiJsClient.getAllPages` (`src/services/client.ts:423-426`): the
tag-backfill fetch, `listPages(null, 10000, 0)`. -/
def getAllPages (w : World) : List WikiPageListItem × RemoteCall :=
  let r := listPages w none 10000 0
  (r.1.1, r.2)

/-- `WikiJsClient.searchPages` (`src/services/client.ts:187-216`): runs
the remote full-text search and, when a (truthy) locale is given,
post-filters the hits by locale and recomputes `totalHits` as the
filtered count. -/
def searchPages (w : World) (searchQuery : String) (locale : Option String) :
    SearchResponse × RemoteCall :=
  let results := w.searchResponse
  let results :=
    match jsStr locale with
    | some loc =>
        let filtered := results.results.filter (fun r => r.locale = loc)
        { results with results := filtered, totalHits := filtered.length }
    | none => results
  (results, .search searchQuery)

/-- `WikiJsClient.createPage` (`src/services/client.ts:221-276`) under a
well-behaved remote: the remote creates the page, assigning `nextId`. -/
def createPage (w : World) (params : CreatePageParams) :
    (Nat × String × String) × RemoteCall :=
  ((w.nextId, params.path, params.title), .create params)

/-- The `variables` object built by `WikiJsClient.updatePage`
(`src/services/client.ts:283-305`): `id` always, then each of content,
title, description, isPublished, tags exactly when non-null — a `none`
field is absent from the outgoing mutation. -/
def updateVariables (p : UpdatePageParams) : List (String × Json) :=
  [("id", Json.num p.id)] ++
    (match p.content with
     | some c => [("content", Json.str c)]
     | none => []) ++
    (match p.title with
     | some t => [("title", Json.str t)]
     | none => []) ++
    (match p.description with
     | some d => [("description", Json.str d)]
     | none => []) ++
    (match p.isPublished with
     | some b => [("isPublished", Json.bool b)]
     | none => []) ++
    (match p.tags with
     | some ts => [("tags", Json.arr (ts.map Json.str))]
     | none => [])

/-- `WikiJsClient.updatePage` (`src/services/client.ts:281-348`) under a
well-behaved remote: submits the dynamically built mutation and unwraps
a succeeded result. -/
def updatePage (_w : World) (params : UpdatePageParams) :
    ApiResponseResult × RemoteCall :=
  ({ succeeded := true, errorCode := 0, message := "" }, .update params)

/-- `WikiJsClient.deletePage` (`src/services/client.ts:353-381`) under a
well-behaved remote. -/
def deletePage (_w : World) (id : Nat) : ApiResponseResult × RemoteCall :=
  ({ succeeded := true, errorCode := 0, message := "" }, .delete id)

/-- `WikiJsClient.movePage` (`src/services/client.ts:386-418`) under a
well-behaved remote. -/
def movePage (_w : World) (id : Nat)
    (destinationPath destinationLocale : String) :
    ApiResponseResult × RemoteCall :=
  ({ succeeded := true, errorCode := 0, message := "" },
    .move id destinationPath destinationLocale)

/-- One zod validation issue: a field path and a message
(`z.ZodError.issues`). -/
structure ZodIssue where
  path : List String
  message : String
deriving Repr, DecidableEq

/-- The error caught at a tool handler's boundary: either a zod
validation error (with its issue list) or an `Error` with a message. -/
inductive ToolError where
  | zod (issues : List ZodIssue)
  | msg (s : String)
deriving Repr, DecidableEq

/-- The response envelope every handler returns to the host:
`{content: [{type: 'text', text: JSON.stringify(body)}], isError?}`,
with the serialized object kept as a `Json` value. -/
structure Envelope where
  body : Json
  isError : Bool
deriving Repr

/-- The error message rendered by `handleToolError`
(`src/services/error-handler.ts:18-29`): zod errors become a
field-path-annotated issue list, plain errors keep their message. -/
def renderToolError (error : ToolError) (toolName : String) : String :=
  match error with
  | .zod issues =>
      let issueLines := issues.map (fun issue =>
        "  - " ++ String.intercalate "." issue.path ++ ": " ++ issue.message)
      "Validation error in " ++ toolName ++ ":\n" ++
        String.intercalate "\n" issueLines
  | .msg s => s

/-- `handleToolError` (`src/services/error-handler.ts:18-51`): the
uniform failure envelope `{success: false, error, tool}` with
`isError: true`. -/
def handleToolError (error : ToolError) (toolName : String) : Envelope :=
  { body := Json.obj
      [("success", Json.bool false),
       ("error", Json.str (renderToolError error toolName)),
       ("tool", Json.str toolName)],
    isError := true }

/-- `successResponse` (`src/services/error-handler.ts:56-74`): the
uniform success envelope `{success: true, ...data}`. -/
def successResponse (data : List (String × Json)) : Envelope :=
  { body := Json.obj (("success", Json.bool true) :: data),
    isError := false }

/-- `ApiResponseResult` as serialized into a success payload. -/
def apiResultJson (r : ApiResponseResult) : Json :=
  Json.obj
    [("succeeded", Json.bool r.succeeded),
     ("errorCode", Json.num r.errorCode),
     ("message", Json.str r.message)]

/-- zod `.min(n)` on a string. -/
def zMinStr (field : String) (minLen : Nat) (s : String) : List ZodIssue :=
  if s.length < minLen then
    [⟨[field], "String must contain at least " ++ toString minLen ++
        " character(s)"⟩]
  else []

/-- zod `.max(n)` on a string. -/
def zMaxStr (field : String) (maxLen : Nat) (s : String) : List ZodIssue :=
  if s.length > maxLen then
    [⟨[field], "String must contain at most " ++ toString maxLen ++
        " character(s)"⟩]
  else []

/-- zod `.positive()` on an integer (numbers are modelled as naturals,
so only the zero case can fail). -/
def zPosNat (field : String) (n : Nat) : List ZodIssue :=
  if n = 0 then [⟨[field], "Number must be greater than 0"⟩] else []

/-- zod `.min(n)` on an integer. -/
def zMinNat (field : String) (minVal n : Nat) : List ZodIssue :=
  if n < minVal then
    [⟨[field], "Number must be greater than or equal to " ++
        toString minVal⟩]
  else []

/-- zod `.max(n)` on an integer. -/
def zMaxNat (field : String) (maxVal n : Nat) : List ZodIssue :=
  if n > maxVal then
    [⟨[field], "Number must be less than or equal to " ++ toString maxVal⟩]
  else []

/-- zod `z.enum([...])`. -/
def zEnum (field : String) (allowed : List String) (s : String) :
    List ZodIssue :=
  if allowed.contains s then [] else [⟨[field], "Invalid enum value"⟩]

/-- An `.optional()` schema: absent values are not validated. -/
def zOpt (f : α → List ZodIssue) (o : Option α) : List ZodIssue :=
  match o with
  | none => []
  | some a => f a

/-- The `localeSchema` check (`z.string().min(2).max(5)`), applied after
defaulting. -/
def zLocale (value : String) : List ZodIssue :=
  zMinStr "locale" 2 value ++ zMaxStr "locale" 5 value

/-- The `pagePathSchema` check (`z.string().min(1).max(500)`). -/
def zPagePath (field : String) (value : String) : List ZodIssue :=
  zMinStr field 1 value ++ zMaxStr field 500 value

/-- Raw arguments of `wikijs_update_page` before validation (all fields
optional, as handed over by the host). -/
structure UpdatePageRawArgs where
  id : Option Nat
  path : Option String
  locale : Option String
  content : Option String
  title : Option String
  description : Option String
  isPublished : Option Bool
  tags : Option (List String)
deriving Repr, DecidableEq

/-- `z.infer<typeof updatePageSchema>`: the validated update intent —
locale defaulted, every other field still sparse. -/
structure UpdatePageInput where
  id : Option Nat
  path : Option String
  locale : String
  content : Option String
  title : Option String
  description : Option String
  isPublished : Option Bool
  tags : Option (List String)
deriving Repr, DecidableEq

/-- `updatePageSchema.parse` (`src/schemas/index.ts`): id positive, path
1–500 chars, locale 2–5 chars defaulting to "en", title ≤ 200,
description ≤ 500; content, isPublished and tags unconstrained. -/
def parseUpdatePage (args : UpdatePageRawArgs) :
    Except (List ZodIssue) UpdatePageInput :=
  let locale := args.locale.getD "en"
  let issues :=
    zOpt (zPosNat "id") args.id ++
    zOpt (zPagePath "path") args.path ++
    zLocale locale ++
    zOpt (zMaxStr "title" 200) args.title ++
    zOpt (zMaxStr "description" 500) args.description
  if issues.isEmpty then
    .ok { id := args.id, path := args.path, locale := locale,
          content := args.content, title := args.title,
          description := args.description,
          isPublished := args.isPublished, tags := args.tags }
  else .error issues

/-- Raw arguments of `wikijs_create_page` before validation. -/
structure CreatePageRawArgs where
  path : Option String
  title : Option String
  content : Option String
  description : Option String
  locale : Option String
  editor : Option String
  isPublished : Option Bool
  isPrivate : Option Bool
  tags : Option (List String)
deriving Repr, DecidableEq

/-- `z.infer<typeof createPageSchema>`. -/
structure CreatePageInput where
  path : String
  title : String
  content : String
  description : String
  locale : String
  editor : String
  isPublished : Bool
  isPrivate : Bool
  tags : List String
deriving Repr, DecidableEq

/-- `createPageSchema.parse`: path/title/content/description required
(missing required fields are reported as issues), defaults for locale,
editor, isPublished, isPrivate, tags. -/
def parseCreatePage (args : CreatePageRawArgs) :
    Except (List ZodIssue) CreatePageInput :=
  let locale := args.locale.getD "en"
  let editor := args.editor.getD "markdown"
  let requiredStr (field : String) (o : Option String)
      (check : String → List ZodIssue) : List ZodIssue :=
    match o with
    | none => [⟨[field], "Required"⟩]
    | some s => check s
  let issues :=
    requiredStr "path" args.path (zPagePath "path") ++
    requiredStr "title" args.title
      (fun t => zMinStr "title" 1 t ++ zMaxStr "title" 200 t) ++
    requiredStr "content" args.content (zMinStr "content" 1) ++
    requiredStr "description" args.description
      (fun d => zMinStr "description" 1 d ++ zMaxStr "description" 500 d) ++
    zLocale locale ++
    zEnum "editor" ["markdown", "code", "ckeditor"] editor
  if issues.isEmpty then
    .ok { path := args.path.getD "", title := args.title.getD "",
          content := args.content.getD "",
          description := args.description.getD "", locale := locale,
          editor := editor, isPublished := args.isPublished.getD true,
          isPrivate := args.isPrivate.getD false,
          tags := args.tags.getD [] }
  else .error issues

/-- Raw arguments of `wikijs_get_page` / `wikijs_delete_page` before
validation (both schemas are identical: id, path, locale). -/
structure PageRefRawArgs where
  id : Option Nat
  path : Option String
  locale : Option String
deriving Repr, DecidableEq

/-- `z.infer<typeof getPageSchema>` and `z.infer<typeof
deletePageSchema>`. -/
structure PageRefInput where
  id : Option Nat
  path : Option String
  locale : String
deriving Repr, DecidableEq

/-- `getPageSchema.parse` / `deletePageSchema.parse`. -/
def parsePageRef (args : PageRefRawArgs) :
    Except (List ZodIssue) PageRefInput :=
  let locale := args.locale.getD "en"
  let issues :=
    zOpt (zPosNat "id") args.id ++
    zOpt (zPagePath "path") args.path ++
    zLocale locale
  if issues.isEmpty then
    .ok { id := args.id, path := args.path, locale := locale }
  else .error issues

/-- Raw arguments of `wikijs_list_pages` before validation. -/
structure ListPagesRawArgs where
  locale : Option String
  limit : Option Nat
  offset : Option Nat
deriving Repr, DecidableEq

/-- `z.infer<typeof listPagesSchema>`: limit defaulted to
`DEFAULT_PAGE_LIMIT`, offset to 0. -/
structure ListPagesInput where
  locale : Option String
  limit : Nat
  offset : Nat
deriving Repr, DecidableEq

/-- `listPagesSchema.parse`: optional locale 2–5 chars, limit
1–`MAX_PAGE_LIMIT` defaulting to `DEFAULT_PAGE_LIMIT`, offset ≥ 0
defaulting to 0. -/
def parseListPages (args : ListPagesRawArgs) :
    Except (List ZodIssue) ListPagesInput :=
  let limit := args.limit.getD DEFAULT_PAGE_LIMIT
  let offset := args.offset.getD 0
  let issues :=
    zOpt zLocale args.locale ++
    (zMinNat "limit" 1 limit ++ zMaxNat "limit" MAX_PAGE_LIMIT limit) ++
    zMinNat "offset" 0 offset
  if issues.isEmpty then
    .ok { locale := args.locale, limit := limit, offset := offset }
  else .error issues

/-- Raw arguments of `wikijs_search_pages` before validation. -/
structure SearchPagesRawArgs where
  query : Option String
  locale : Option String
deriving Repr, DecidableEq

/-- `z.infer<typeof searchPagesSchema>`. -/
structure SearchPagesInput where
  query : String
  locale : Option String
deriving Repr, DecidableEq

/-- `searchPagesSchema.parse`: query required, 2–200 chars; optional
locale 2–5 chars. -/
def parseSearchPages (args : SearchPagesRawArgs) :
    Except (List ZodIssue) SearchPagesInput :=
  let issues :=
    (match args.query with
     | none => [⟨["query"], "Required"⟩]
     | some q => zMinStr "query" 2 q ++ zMaxStr "query" 200 q) ++
    zOpt zLocale args.locale
  if issues.isEmpty then
    .ok { query := args.query.getD "", locale := args.locale }
  else .error issues

/-- Raw arguments of `wikijs_move_page` before validation. -/
structure MovePageRawArgs where
  id : Option Nat
  path : Option String
  locale : Option String
  destinationPath : Option String
  destinationLocale : Option String
deriving Repr, DecidableEq

/-- `z.infer<typeof movePageSchema>`. -/
structure MovePageInput where
  id : Option Nat
  path : Option String
  locale : String
  destinationPath : String
  destinationLocale : String
deriving Repr, DecidableEq

/-- `movePageSchema.parse`: destinationPath required 1–500 chars,
destinationLocale defaulting to "en" with 2–5 chars. -/
def parseMovePage (args : MovePageRawArgs) :
    Except (List ZodIssue) MovePageInput :=
  let locale := args.locale.getD "en"
  let destinationLocale := args.destinationLocale.getD "en"
  let issues :=
    zOpt (zPosNat "id") args.id ++
    zOpt (zPagePath "path") args.path ++
    zLocale locale ++
    (match args.destinationPath with
     | none => [⟨["destinationPath"], "Required"⟩]
     | some d =>
         zMinStr "destinationPath" 1 d ++ zMaxStr "destinationPath" 500 d) ++
    (zMinStr "destinationLocale" 2 destinationLocale ++
      zMaxStr "destinationLocale" 5 destinationLocale)
  if issues.isEmpty then
    .ok { id := args.id, path := args.path, locale := locale,
          destinationPath := args.destinationPath.getD "",
          destinationLocale := destinationLocale }
  else .error issues

/-- A `WikiPage` as serialized into the `wikijs_get_page` success
payload (an undefined `content` property is dropped by
`JSON.stringify`). -/
def pageJson (p : WikiPage) : Json :=
  Json.obj
    ([("id", Json.num p.id), ("path", Json.str p.path),
      ("title", Json.str p.title),
      ("description", Json.str p.description)] ++
     (match p.content with
      | some c => [("content", Json.str c)]
      | none => []) ++
     [("contentType", Json.str p.contentType),
      ("isPublished", Json.bool p.isPublished),
      ("locale", Json.str p.locale),
      ("createdAt", Json.str p.createdAt),
      ("updatedAt", Json.str p.updatedAt)])

/-- A list entry as serialized into the `wikijs_list_pages` success
payload. -/
def listItemJson (p : WikiPageListItem) : Json :=
  Json.obj
    [("id", Json.num p.id), ("path", Json.str p.path),
     ("title", Json.str p.title),
     ("description", Json.str p.description),
     ("locale", Json.str p.locale),
     ("isPublished", Json.bool p.isPublished),
     ("tags", Json.arr (p.tags.map Json.str)),
     ("updatedAt", Json.str p.updatedAt)]

/-- A search hit as serialized into the `wikijs_search_pages` success
payload. -/
def searchResultJson (r : SearchResult) : Json :=
  Json.obj
    [("id", Json.num r.id), ("title", Json.str r.title),
     ("path", Json.str r.path),
     ("description", Json.str r.description),
     ("locale", Json.str r.locale)]

/-- The shared `Either "id" or "path" must be provided` message. -/
def eitherIdOrPathMsg : String :=
  "Either \"id\" or \"path\" must be provided"

/-- Final phase of `handleUpdatePage`
(`src/tools/update-page.ts:99-111`): build the sparse update parameters
(`?? null` on title/description/isPublished, the reconciled content and
tags) and submit the mutation. -/
def updateSubmit (w : World) (v : UpdatePageInput) (pageId : Nat)
    (contentToUse : Option String) (tagsToUse : List String)
    (trace : List RemoteCall) : Envelope × List RemoteCall :=
  let params : UpdatePageParams :=
    { id := pageId, content := contentToUse, title := v.title,
      description := v.description, isPublished := v.isPublished,
      tags := some tagsToUse }
  let r := updatePage w params
  (successResponse
      [("message",
        Json.str ("Page " ++ toString pageId ++ " updated successfully")),
       ("result", apiResultJson r.1)],
    trace ++ [r.2])

/-- Tag-reconciliation phase of `handleUpdatePage`
(`src/tools/update-page.ts:90-97`): when the intent carries no tags,
fetch the full listing, look the page up by id and keep its tags (or
`[]` when it is not found). -/
def updateTagsPhase (w : World) (v : UpdatePageInput) (pageId : Nat)
    (contentToUse : Option String) (trace : List RemoteCall) :
    Envelope × List RemoteCall :=
  match v.tags with
  | some tagsToUse => updateSubmit w v pageId contentToUse tagsToUse trace
  | none =>
      let r := getAllPages w
      let foundPage := r.1.find? (fun p => p.id = pageId)
      let tagsToUse := (foundPage.map (fun p => p.tags)).getD []
      updateSubmit w v pageId contentToUse tagsToUse (trace ++ [r.2])

/-- Content-reconciliation phase of `handleUpdatePage`
(`src/tools/update-page.ts:76-88`): when the intent carries no content
(strict `undefined` check — the empty string counts as present), reuse
the page fetched during path resolution or fetch it by id, and take its
content. -/
def updateContentPhase (w : World) (v : UpdatePageInput) (pageId : Nat)
    (currentPage : Option WikiPage) (trace : List RemoteCall) :
    Envelope × List RemoteCall :=
  match v.content with
  | some c => updateTagsPhase w v pageId (some c) trace
  | none =>
      match currentPage with
      | some cp => updateTagsPhase w v pageId cp.content trace
      | none =>
          match getPageById w pageId with
          | (none, c) =>
              (handleToolError
                  (.msg ("Page not found with ID: " ++ toString pageId))
                  "wikijs_update_page",
                trace ++ [c])
          | (some cp, c) =>
              updateTagsPhase w v pageId cp.content (trace ++ [c])

/-- `handleUpdatePage` (`src/tools/update-page.ts:48-115`): validate,
require id-or-path, resolve the page id (retaining a page fetched by
path), reconcile content and tags, submit the update, and catch every
error into the failure envelope. -/
def handleUpdatePage (w : World) (args : UpdatePageRawArgs) :
    Envelope × List RemoteCall :=
  match parseUpdatePage args with
  | .error issues => (handleToolError (.zod issues) "wikijs_update_page", [])
  | .ok v =>
      if (jsNat v.id).isNone && (jsStr v.path).isNone then
        (handleToolError (.msg eitherIdOrPathMsg) "wikijs_update_page", [])
      else
        match jsNat v.id, jsStr v.path with
        | some pageId, _ => updateContentPhase w v pageId none []
        | none, some p =>
            match getPageByPath w p v.locale with
            | (none, c) =>
                (handleToolError (.msg ("Page not found at path: " ++ p))
                    "wikijs_update_page",
                  [c])
            | (some page, c) =>
                if page.id = 0 then
                  (handleToolError (.msg "Could not resolve page ID")
                      "wikijs_update_page",
                    [c])
                else updateContentPhase w v page.id (some page) [c]
        | none, none =>
            (handleToolError (.msg "Could not resolve page ID")
                "wikijs_update_page",
              [])

/-- `handleCreatePage` (TypeScript `src/tools/create-page.ts`):
validate, create, report the created page. -/
def handleCreatePage (w : World) (args : CreatePageRawArgs) :
    Envelope × List RemoteCall :=
  match parseCreatePage args with
  | .error issues => (handleToolError (.zod issues) "wikijs_create_page", [])
  | .ok v =>
      let r := createPage w
        { content := v.content, description := v.description,
          editor := v.editor, isPublished := v.isPublished,
          isPrivate := v.isPrivate, locale := v.locale, path := v.path,
          tags := v.tags, title := v.title }
      (successResponse
          [("message",
            Json.str ("Page created successfully at /" ++ v.path)),
           ("page", Json.obj
              [("id", Json.num r.1.1), ("path", Json.str r.1.2.1),
               ("title", Json.str r.1.2.2)])],
        [r.2])

/-- `handleGetPage` (TypeScript `src/tools/get-page.ts`): validate,
require id-or-path, fetch by id when a (truthy) id is given else by
path, fail with a not-found message keyed on the truthiness of the
validated path, else return the full page payload. -/
def handleGetPage (w : World) (args : PageRefRawArgs) :
    Envelope × List RemoteCall :=
  match parsePageRef args with
  | .error issues => (handleToolError (.zod issues) "wikijs_get_page", [])
  | .ok v =>
      if (jsNat v.id).isNone && (jsStr v.path).isNone then
        (handleToolError (.msg eitherIdOrPathMsg) "wikijs_get_page", [])
      else
        let notFoundMsg :=
          match jsStr v.path with
          | some p => "Page not found at path: " ++ p
          | none =>
              "Page not found with ID: " ++
                (match v.id with
                 | some i => toString i
                 | none => "undefined")
        let fetched : Option WikiPage × List RemoteCall :=
          match jsNat v.id with
          | some i =>
              let r := getPageById w i
              (r.1, [r.2])
          | none =>
              match jsStr v.path with
              | some p =>
                  let r := getPageByPath w p v.locale
                  (r.1, [r.2])
              | none => (none, [])
        match fetched with
        | (none, trace) =>
            (handleToolError (.msg notFoundMsg) "wikijs_get_page", trace)
        | (some page, trace) =>
            (successResponse [("page", pageJson page)], trace)

/-- `handleListPages` (TypeScript `src/tools/list-pages.ts`): validate,
fetch-and-paginate through the client, and report the slice together
with the pagination block (`next_offset` present only when
`has_more`). -/
def handleListPages (w : World) (args : ListPagesRawArgs) :
    Envelope × List RemoteCall :=
  match parseListPages args with
  | .error issues => (handleToolError (.zod issues) "wikijs_list_pages", [])
  | .ok v =>
      let limit := v.limit
      let offset := v.offset
      let r := listPages w v.locale limit offset
      let pageList := r.1.1.map listItemJson
      let total := r.1.2
      let hasMore := offset + pageList.length < total
      (successResponse
          [("pages", Json.arr pageList),
           ("pagination", Json.obj
              ([("limit", Json.num limit), ("offset", Json.num offset),
                ("total_count", Json.num total),
                ("has_more", Json.bool hasMore)] ++
               (if hasMore then
                  [("next_offset", Json.num (offset + pageList.length))]
                else [])))],
        [r.2])

/-- `handleSearchPages` (`src/tools/search-pages.ts`): validate, search
(with client-side locale filter), report hits. -/
def handleSearchPages (w : World) (args : SearchPagesRawArgs) :
    Envelope × List RemoteCall :=
  match parseSearchPages args with
  | .error issues =>
      (handleToolError (.zod issues) "wikijs_search_pages", [])
  | .ok v =>
      let r := searchPages w v.query v.locale
      (successResponse
          [("totalHits", Json.num r.1.totalHits),
           ("suggestions", Json.arr (r.1.suggestions.map Json.str)),
           ("results", Json.arr (r.1.results.map searchResultJson))],
        [r.2])

/-- Final phase of `handleDeletePage`: issue the delete and report. -/
def deleteResolved (w : World) (pageId : Nat) (trace : List RemoteCall) :
    Envelope × List RemoteCall :=
  let r := deletePage w pageId
  (successResponse
      [("message",
        Json.str ("Page " ++ toString pageId ++ " deleted permanently")),
       ("result", apiResultJson r.1)],
    trace ++ [r.2])

/-- `handleDeletePage` (`src/tools/delete-page.ts:41-78`): validate,
require id-or-path, resolve by path when no (truthy) id is given, then
delete. -/
def handleDeletePage (w : World) (args : PageRefRawArgs) :
    Envelope × List RemoteCall :=
  match parsePageRef args with
  | .error issues => (handleToolError (.zod issues) "wikijs_delete_page", [])
  | .ok v =>
      if (jsNat v.id).isNone && (jsStr v.path).isNone then
        (handleToolError (.msg eitherIdOrPathMsg) "wikijs_delete_page", [])
      else
        match jsNat v.id, jsStr v.path with
        | some pageId, _ => deleteResolved w pageId []
        | none, some p =>
            match getPageByPath w p v.locale with
            | (none, c) =>
                (handleToolError (.msg ("Page not found at path: " ++ p))
                    "wikijs_delete_page",
                  [c])
            | (some page, c) =>
                if page.id = 0 then
                  (handleToolError (.msg "Could not resolve page ID")
                      "wikijs_delete_page",
                    [c])
                else deleteResolved w page.id [c]
        | none, none =>
            (handleToolError (.msg "Could not resolve page ID")
                "wikijs_delete_page",
              [])

/-- Final phase of `handleMovePage`: issue the move and report (`from`
falls back to `ID: <id>` when the validated path is falsy). -/
def moveResolved (w : World) (v : MovePageInput) (pageId : Nat)
    (trace : List RemoteCall) : Envelope × List RemoteCall :=
  let r := movePage w pageId v.destinationPath v.destinationLocale
  (successResponse
      [("message", Json.str "Page moved successfully"),
       ("from",
        Json.str
          (match jsStr v.path with
           | some p => p
           | none => "ID: " ++ toString pageId)),
       ("to", Json.str v.destinationPath),
       ("destinationLocale", Json.str v.destinationLocale),
       ("result", apiResultJson r.1)],
    trace ++ [r.2])

/-- `handleMovePage` (TypeScript `src/tools/move-page.ts`): validate,
require id-or-path, resolve by path when no (truthy) id is given, then
move. -/
def handleMovePage (w : World) (args : MovePageRawArgs) :
    Envelope × List RemoteCall :=
  match parseMovePage args with
  | .error issues => (handleToolError (.zod issues) "wikijs_move_page", [])
  | .ok v =>
      if (jsNat v.id).isNone && (jsStr v.path).isNone then
        (handleToolError (.msg eitherIdOrPathMsg) "wikijs_move_page", [])
      else
        match jsNat v.id, jsStr v.path with
        | some pageId, _ => moveResolved w v pageId []
        | none, some p =>
            match getPageByPath w p v.locale with
            | (none, c) =>
                (handleToolError (.msg ("Page not found at path: " ++ p))
                    "wikijs_move_page",
                  [c])
            | (some page, c) =>
                if page.id = 0 then
                  (handleToolError (.msg "Could not resolve page ID")
                      "wikijs_move_page",
                    [c])
                else moveResolved w v page.id [c]
        | none, none =>
            (handleToolError (.msg "Could not resolve page ID")
                "wikijs_move_page",
              [])

/-- The transport-level outcome of the single `fetch` issued by
`WikiJsClient.query`: the abort timer fired, the request failed on the
network, or a response arrived with an HTTP status and a parsed
GraphQL body `{data?, errors?}`. -/
inductive FetchOutcome (T : Type) where
  | timeout
  | networkError (message : String)
  | response (ok : Bool) (status : Nat) (data : Option T)
      (errors : Option (List String))

/-- `JSON.stringify` of a GraphQL error list
(`Array<{message: string}>`). -/
def renderGraphQLErrors (errors : List String) : String :=
  "[" ++ String.intercalate ","
      (errors.map (fun m => "\x7b\"message\":\"" ++ m ++ "\"\x7d")) ++ "]"

/-- The timeout failure message of `WikiJsClient.query`
(`src/services/client.ts:67-69`): the only failure not wrapped in the
`Wiki.js API request failed:` prefix. -/
def timeoutMsg : String := "Request timed out. Please try again."

/-- `WikiJsClient.query` (`src/services/client.ts:34-72`): a non-ok
status, a body carrying an error list (even on transport success), and
a body with no data each raise an error that the catch block re-wraps
with the `Wiki.js API request failed:` prefix; an aborted (timed-out)
request raises the distinct timeout message; otherwise the body's data
is returned exactly. -/
def gatewayQuery (outcome : FetchOutcome T) : Except String T :=
  match outcome with
  | .timeout => .error timeoutMsg
  | .networkError m => .error ("Wiki.js API request failed: " ++ m)
  | .response ok status data errors =>
      if !ok then
        .error ("Wiki.js API request failed: HTTP error! status: " ++
          toString status)
      else
        match errors with
        | some errs =>
            .error ("Wiki.js API request failed: GraphQL Error: " ++
              renderGraphQLErrors errs)
        | none =>
            match data with
            | none =>
                .error
                  "Wiki.js API request failed: No data returned from GraphQL API"
            | some d => .ok d

/-- Every wrapped gateway failure message differs from the timeout
message (they disagree on their first character). -/
theorem wrapped_ne_timeoutMsg (s : String) :
    "Wiki.js API request failed: " ++ s ≠ timeoutMsg := by
  intro h
  cases s with
  | mk l =>
    have h1 : ("Wiki.js API request failed: " ++ String.mk l).data.head? =
        some 'W' := rfl
    rw [h] at h1
    have h2 : (timeoutMsg : String).data.head? = some 'R' := rfl
    rw [h2] at h1
    injection h1 with h3
    exact absurd h3 (by decide)

/-- C6: for every gateway call, the call fails when the remote response
carries an error list even if the transport status is success, fails
when the response contains neither data nor errors, and fails with a
timeout error distinct from every other transport failure when the
fixed timeout is exceeded; it returns the response data exactly
otherwise. -/
theorem gateway_query_error_contract :
    (∀ (T : Type) (status : Nat) (data : Option T) (errs : List String),
        gatewayQuery (.response true status data (some errs)) =
          .error ("Wiki.js API request failed: GraphQL Error: " ++
            renderGraphQLErrors errs)) ∧
    (∀ (T : Type) (status : Nat),
        gatewayQuery (T := T) (.response true status none none) =
          .error
            "Wiki.js API request failed: No data returned from GraphQL API") ∧
    (∀ (T : Type), gatewayQuery (T := T) .timeout = .error timeoutMsg) ∧
    (∀ (T : Type) (o : FetchOutcome T) (e : String),
        o ≠ .timeout → gatewayQuery o = .error e → e ≠ timeoutMsg) ∧
    (∀ (T : Type) (status : Nat) (d : T),
        gatewayQuery (.response true status (some d) none) = .ok d) := by
  refine ⟨fun T status data errs => rfl, fun T status => rfl, fun T => rfl,
    ?_, fun T status d => rfl⟩
  intro T o e hne h
  cases o with
  | timeout => exact absurd rfl hne
  | networkError m =>
      simp only [gatewayQuery] at h
      injection h with h'
      subst h'
      exact wrapped_ne_timeoutMsg m
  | response ok status data errors =>
      cases ok with
      | false =>
          simp only [gatewayQuery, Bool.not_false, if_true] at h
          injection h with h'
          subst h'
          exact wrapped_ne_timeoutMsg _
      | true =>
          cases errors with
          | some errs =>
              simp only [gatewayQuery, Bool.not_true, if_false] at h
              injection h with h'
              subst h'
              exact wrapped_ne_timeoutMsg _
          | none =>
              cases data with
              | none =>
                  simp only [gatewayQuery, Bool.not_true, if_false] at h
                  injection h with h'
                  subst h'
                  decide
              | some d =>
                  simp only [gatewayQuery, Bool.not_true, if_false] at h
                  exact Except.noConfusion h

/-- Witness for the hypotheses of `gateway_query_error_contract`: a
concrete non-timeout failure carries a message different from the
timeout message. -/
theorem gateway_query_error_contract_witness :
    ("Wiki.js API request failed: boom" : String) ≠ timeoutMsg :=
  gateway_query_error_contract.2.2.2.1 Json (.networkError "boom")
    "Wiki.js API request failed: boom" (by nofun) rfl

/-- C9: with a locale given, search returns exactly the raw hits whose
locale matches and totalHits is recomputed as the count of those
filtered results; with no locale given, results and totalHits are
returned as the remote produced them. -/
theorem search_locale_postfilter :
    (∀ (w : World) (q l : String), l ≠ "" →
        (searchPages w q (some l)).1.results =
            w.searchResponse.results.filter (fun r => r.locale = l) ∧
          (searchPages w q (some l)).1.totalHits =
            (w.searchResponse.results.filter (fun r => r.locale = l)).length) ∧
    (∀ (w : World) (q : String), (searchPages w q none).1 = w.searchResponse) := by
  constructor
  · intro w q l hl
    simp [searchPages, jsStr, hl]
  · intro w q
    simp [searchPages, jsStr]

/-- The world of the C9 example: five raw hits of which exactly two
carry locale "de". -/
def searchDemoWorld : World :=
  { pages := [],
    searchResponse :=
      { results :=
          [⟨1, "T1", "p1", "", "de"⟩, ⟨2, "T2", "p2", "", "en"⟩,
           ⟨3, "T3", "p3", "", "de"⟩, ⟨4, "T4", "p4", "", "en"⟩,
           ⟨5, "T5", "p5", "", "en"⟩],
        suggestions := [], totalHits := 5 },
    nextId := 6 }

/-- Witness for `search_locale_postfilter`: on the five-hit demo world a
"de" search keeps exactly the two "de" hits and reports totalHits 2. -/
theorem search_locale_postfilter_witness :
    ((searchPages searchDemoWorld "osTicket" (some "de")).1.results =
        searchDemoWorld.searchResponse.results.filter
          (fun r => r.locale = "de") ∧
      (searchPages searchDemoWorld "osTicket" (some "de")).1.totalHits =
        (searchDemoWorld.searchResponse.results.filter
          (fun r => r.locale = "de")).length) ∧
    (searchPages searchDemoWorld "osTicket" (some "de")).1.totalHits = 2 ∧
    (searchPages searchDemoWorld "osTicket" (some "de")).1.results =
      [⟨1, "T1", "p1", "", "de"⟩, ⟨3, "T3", "p3", "", "de"⟩] :=
  ⟨search_locale_postfilter.1 searchDemoWorld "osTicket" "de" (by decide),
    by decide, by decide⟩

/-- Compact stored-page builder for concrete worlds. -/
def mkStored (id : Nat) (path locale : String) (tags : List String)
    (content : Option String) : StoredPage :=
  { id := id, path := path, title := "T" ++ toString id, description := "",
    content := content, contentType := "markdown", isPublished := true,
    locale := locale, createdAt := "", updatedAt := "", tags := tags }

/-- The locale-filtered listing as computed inside `listPages` (the full
listing when no truthy locale is given). -/
def filteredListing (w : World) (locale : Option String) :
    List WikiPageListItem :=
  match jsStr locale with
  | some loc => (w.pages.map StoredPage.toListItem).filter
      (fun p => p.locale = loc)
  | none => w.pages.map StoredPage.toListItem

/-- C3 (amended): the fetched collection is filtered by locale, then
sliced to `[offset, offset+limit)`; the reported `total_count` is the
length of the UNFILTERED collection (it is computed before the locale
filter, so it is the true total of the filtered collection only when no
locale is given); `has_more` holds iff `offset + returned_count` is
below that unfiltered total, and `next_offset` equals
`offset + returned_count` and is present iff `has_more`. -/
theorem list_pagination_contract (w : World) (args : ListPagesRawArgs)
    (v : ListPagesInput) (hp : parseListPages args = .ok v) :
    handleListPages w args =
      (successResponse
        [("pages", Json.arr
            ((jsSlice (filteredListing w v.locale) v.offset v.limit).map
              listItemJson)),
         ("pagination", Json.obj
            ([("limit", Json.num v.limit), ("offset", Json.num v.offset),
              ("total_count", Json.num w.pages.length),
              ("has_more", Json.bool
                (decide (v.offset +
                    (jsSlice (filteredListing w v.locale) v.offset
                      v.limit).length <
                  w.pages.length)))] ++
             (if v.offset +
                  (jsSlice (filteredListing w v.locale) v.offset
                    v.limit).length <
                w.pages.length then
                [("next_offset", Json.num
                    (v.offset +
                      (jsSlice (filteredListing w v.locale) v.offset
                        v.limit).length))]
              else [])))],
        [.listAll]) := by
  simp only [handleListPages, hp, listPages, filteredListing]
  simp only [List.length_map]

/-- A three-page single-locale demo world. -/
def listDemoWorld3 : World :=
  { pages := [mkStored 1 "a" "en" [] none, mkStored 2 "b" "en" [] none,
      mkStored 3 "c" "en" [] none],
    searchResponse := ⟨[], [], 0⟩, nextId := 4 }

/-- Witness for `list_pagination_contract` at a concrete invocation
(limit 2, offset 0 over three pages). -/
theorem list_pagination_contract_witness :
    handleListPages listDemoWorld3 ⟨none, some 2, some 0⟩ =
      (successResponse
        [("pages", Json.arr
            ((jsSlice (filteredListing listDemoWorld3 none) 0 2).map
              listItemJson)),
         ("pagination", Json.obj
            ([("limit", Json.num 2), ("offset", Json.num 0),
              ("total_count", Json.num listDemoWorld3.pages.length),
              ("has_more", Json.bool
                (decide (0 +
                    (jsSlice (filteredListing listDemoWorld3 none) 0
                      2).length <
                  listDemoWorld3.pages.length)))] ++
             (if 0 +
                  (jsSlice (filteredListing listDemoWorld3 none) 0
                    2).length <
                listDemoWorld3.pages.length then
                [("next_offset", Json.num
                    (0 +
                      (jsSlice (filteredListing listDemoWorld3 none) 0
                        2).length))]
              else [])))],
        [.listAll]) :=
  list_pagination_contract listDemoWorld3 ⟨none, some 2, some 0⟩
    ⟨none, 2, 0⟩ rfl

/-- A two-page demo world with one "en" and one "de" page. -/
def listDemoWorld2 : World :=
  { pages := [mkStored 1 "a" "en" [] none, mkStored 2 "b" "de" [] none],
    searchResponse := ⟨[], [], 0⟩, nextId := 3 }

/-- Counterexample to C3 as stated: listing with locale "de" over
`listDemoWorld2` returns the single "de" page, yet reports
`total_count = 2` — the length of the UNFILTERED collection, not the
true total (1) of the filtered collection — and `has_more = true` with
`next_offset = 1` although the filtered collection is exhausted. -/
theorem list_total_count_counterexample :
    (handleListPages listDemoWorld2 ⟨some "de", none, none⟩).1 =
      successResponse
        [("pages", Json.arr
            [listItemJson (StoredPage.toListItem
              (mkStored 2 "b" "de" [] none))]),
         ("pagination", Json.obj
            [("limit", Json.num 50), ("offset", Json.num 0),
             ("total_count", Json.num 2), ("has_more", Json.bool true),
             ("next_offset", Json.num 1)])] ∧
    (filteredListing listDemoWorld2 (some "de")).length = 1 ∧
    (2 : Nat) ≠ 1 :=
  ⟨rfl, rfl, by decide⟩

/-- A path lookup that finds no page returns the `(none, fetch)` pair. -/
theorem getPageByPath_none (w : World) (p l : String)
    (h : (getPageByPath w p l).1 = none) :
    getPageByPath w p l = (none, .fetchByPath p l) := by
  have h2 : getPageByPath w p l =
      ((getPageByPath w p l).1, .fetchByPath p l) := rfl
  rw [h] at h2
  exact h2

/-- C4: for update, delete, move and read resolved by a (path, locale)
matching no page, the handler fails with the not-found error and the
remote-call trace is exactly the single failed lookup — in particular
update never issues its update mutation. -/
theorem path_resolution_notfound_halts :
    (∀ (w : World) (p : String) (args : UpdatePageRawArgs)
        (v : UpdatePageInput),
        parseUpdatePage args = .ok v → jsNat v.id = none →
        jsStr v.path = some p → (getPageByPath w p v.locale).1 = none →
        handleUpdatePage w args =
          (handleToolError (.msg ("Page not found at path: " ++ p))
              "wikijs_update_page",
            [.fetchByPath p v.locale])) ∧
    (∀ (w : World) (p : String) (args : PageRefRawArgs) (v : PageRefInput),
        parsePageRef args = .ok v → jsNat v.id = none →
        jsStr v.path = some p → (getPageByPath w p v.locale).1 = none →
        handleDeletePage w args =
          (handleToolError (.msg ("Page not found at path: " ++ p))
              "wikijs_delete_page",
            [.fetchByPath p v.locale])) ∧
    (∀ (w : World) (p : String) (args : MovePageRawArgs) (v : MovePageInput),
        parseMovePage args = .ok v → jsNat v.id = none →
        jsStr v.path = some p → (getPageByPath w p v.locale).1 = none →
        handleMovePage w args =
          (handleToolError (.msg ("Page not found at path: " ++ p))
              "wikijs_move_page",
            [.fetchByPath p v.locale])) ∧
    (∀ (w : World) (p : String) (args : PageRefRawArgs) (v : PageRefInput),
        parsePageRef args = .ok v → jsNat v.id = none →
        jsStr v.path = some p → (getPageByPath w p v.locale).1 = none →
        handleGetPage w args =
          (handleToolError (.msg ("Page not found at path: " ++ p))
              "wikijs_get_page",
            [.fetchByPath p v.locale])) := by
  refine ⟨?_, ?_, ?_, ?_⟩ <;>
    · intro w p args v hp hid hpath hfind
      have hpair := getPageByPath_none w p v.locale hfind
      simp [handleUpdatePage, handleDeletePage, handleMovePage,
        handleGetPage, hp, hid, hpath, hpair]

/-- The empty remote world. -/
def emptyWorld : World := { pages := [], searchResponse := ⟨[], [], 0⟩, nextId := 1 }

/-- Witness for `path_resolution_notfound_halts`: on the empty world,
update, delete, move and read addressed at path "a/b" each fail with
the not-found envelope after exactly one lookup. -/
theorem path_resolution_notfound_halts_witness :
    handleUpdatePage emptyWorld
        ⟨none, some "a/b", some "en", none, none, none, none, none⟩ =
      (handleToolError (.msg ("Page not found at path: " ++ "a/b"))
          "wikijs_update_page",
        [.fetchByPath "a/b" "en"]) ∧
    handleDeletePage emptyWorld ⟨none, some "a/b", some "en"⟩ =
      (handleToolError (.msg ("Page not found at path: " ++ "a/b"))
          "wikijs_delete_page",
        [.fetchByPath "a/b" "en"]) ∧
    handleMovePage emptyWorld
        ⟨none, some "a/b", some "en", some "c/d", some "en"⟩ =
      (handleToolError (.msg ("Page not found at path: " ++ "a/b"))
          "wikijs_move_page",
        [.fetchByPath "a/b" "en"]) ∧
    handleGetPage emptyWorld ⟨none, some "a/b", some "en"⟩ =
      (handleToolError (.msg ("Page not found at path: " ++ "a/b"))
          "wikijs_get_page",
        [.fetchByPath "a/b" "en"]) :=
  ⟨path_resolution_notfound_halts.1 emptyWorld "a/b"
      ⟨none, some "a/b", some "en", none, none, none, none, none⟩
      ⟨none, some "a/b", "en", none, none, none, none, none⟩
      rfl rfl rfl rfl,
    path_resolution_notfound_halts.2.1 emptyWorld "a/b"
      ⟨none, some "a/b", some "en"⟩ ⟨none, some "a/b", "en"⟩
      rfl rfl rfl rfl,
    path_resolution_notfound_halts.2.2.1 emptyWorld "a/b"
      ⟨none, some "a/b", some "en", some "c/d", some "en"⟩
      ⟨none, some "a/b", "en", "c/d", "en"⟩
      rfl rfl rfl rfl,
    path_resolution_notfound_halts.2.2.2 emptyWorld "a/b"
      ⟨none, some "a/b", some "en"⟩ ⟨none, some "a/b", "en"⟩
      rfl rfl rfl rfl⟩

/-- An id lookup always reports the `fetchById` call. -/
theorem getPageById_pair (w : World) (i : Nat) :
    getPageById w i = ((getPageById w i).1, .fetchById i) := rfl

/-- The tag set the reconciler backfills for a resolved id: the tags of
the matching entry among the FIRST 10000 entries of the unfiltered
listing, or `[]` when no entry matches there. -/
def backfillTags (w : World) (pid : Nat) : List String :=
  ((((w.pages.map StoredPage.toListItem).take 10000).find?
      (fun p => p.id = pid)).map (fun p => p.tags)).getD []

/-- `getAllPages` returns exactly the first 10000 entries of the
unfiltered listing. -/
theorem getAllPages_eq (w : World) :
    getAllPages w = ((w.pages.map StoredPage.toListItem).take 10000,
      .listAll) := rfl

/-- `updateSubmit` unfolded: one update mutation carrying the reconciled
fields, appended to the trace. -/
theorem updateSubmit_eq (w : World) (v : UpdatePageInput) (pid : Nat)
    (c : Option String) (ts : List String) (tr : List RemoteCall) :
    updateSubmit w v pid c ts tr =
      (successResponse
        [("message",
          Json.str ("Page " ++ toString pid ++ " updated successfully")),
         ("result", apiResultJson ⟨true, 0, ""⟩)],
        tr ++ [.update ⟨pid, c, v.title, v.description, v.isPublished,
          some ts⟩]) := rfl

/-- The tags phase with tags present submits them verbatim. -/
theorem updateTagsPhase_present (w : World) (v : UpdatePageInput)
    (pid : Nat) (c : Option String) (tr : List RemoteCall)
    (ts : List String) (h : v.tags = some ts) :
    updateTagsPhase w v pid c tr = updateSubmit w v pid c ts tr := by
  simp [updateTagsPhase, h]

/-- The tags phase with tags absent fetches the listing and submits the
backfilled tags. -/
theorem updateTagsPhase_absent (w : World) (v : UpdatePageInput)
    (pid : Nat) (c : Option String) (tr : List RemoteCall)
    (h : v.tags = none) :
    updateTagsPhase w v pid c tr =
      updateSubmit w v pid c (backfillTags w pid) (tr ++ [.listAll]) := by
  simp only [updateTagsPhase, h, getAllPages_eq, backfillTags]

/-- What the tags phase submits: the input content verbatim, the
intent's sparse metadata fields verbatim, and the intent's tags when
present else the backfilled tags; it fetches the listing exactly when
tags are absent and never fetches a single page. -/
theorem updateTagsPhase_submission (w : World) (v : UpdatePageInput)
    (pid : Nat) (c : Option String) (tr : List RemoteCall)
    (htrU : ∀ params, RemoteCall.update params ∉ tr)
    (htrL : RemoteCall.listAll ∉ tr) :
    (∀ params, RemoteCall.update params ∈ (updateTagsPhase w v pid c tr).2 →
        params = ⟨pid, c, v.title, v.description, v.isPublished,
          some (v.tags.getD (backfillTags w pid))⟩) ∧
    ((∃ ts, v.tags = some ts) →
        RemoteCall.listAll ∉ (updateTagsPhase w v pid c tr).2) ∧
    (∀ i, RemoteCall.fetchById i ∈ (updateTagsPhase w v pid c tr).2 →
        RemoteCall.fetchById i ∈ tr) ∧
    (v.tags = none →
        RemoteCall.listAll ∈ (updateTagsPhase w v pid c tr).2) := by
  cases hts : v.tags with
  | some ts =>
      rw [updateTagsPhase_present w v pid c tr ts hts, updateSubmit_eq]
      refine ⟨?_, ?_, ?_, ?_⟩
      · intro params hmem
        rcases List.mem_append.1 hmem with h | h
        · exact absurd h (htrU params)
        · have h' := List.mem_singleton.1 h
          injection h' with h''
      · intro _ hmem
        rcases List.mem_append.1 hmem with h | h
        · exact htrL h
        · exact absurd (List.mem_singleton.1 h) (by nofun)
      · intro i hmem
        rcases List.mem_append.1 hmem with h | h
        · exact h
        · exact absurd (List.mem_singleton.1 h) (by nofun)
      · intro hnone
        exact absurd hnone (by nofun)
  | none =>
      rw [updateTagsPhase_absent w v pid c tr hts, updateSubmit_eq]
      refine ⟨?_, ?_, ?_, ?_⟩
      · intro params hmem
        rcases List.mem_append.1 hmem with h | h
        · rcases List.mem_append.1 h with h2 | h2
          · exact absurd h2 (htrU params)
          · exact absurd (List.mem_singleton.1 h2) (by nofun)
        · have h' := List.mem_singleton.1 h
          injection h' with h''
      · intro hex
        rcases hex with ⟨ts, hx⟩
        exact absurd hx (by nofun)
      · intro i hmem
        rcases List.mem_append.1 hmem with h | h
        · rcases List.mem_append.1 h with h2 | h2
          · exact h2
          · exact absurd (List.mem_singleton.1 h2) (by nofun)
        · exact absurd (List.mem_singleton.1 h) (by nofun)
      · intro _
        exact List.mem_append.2 (.inl (List.mem_append.2
          (.inr (List.mem_singleton.2 rfl))))

/-- Content present: the content phase passes it through verbatim and
fetches nothing. -/
theorem updateContentPhase_present (w : World) (v : UpdatePageInput)
    (pid : Nat) (cur : Option WikiPage) (tr : List RemoteCall)
    (c : String) (h : v.content = some c) :
    updateContentPhase w v pid cur tr = updateTagsPhase w v pid (some c) tr := by
  simp [updateContentPhase, h]

/-- Content absent with a page retained from path resolution: its
(fetched) content is reused without a further fetch. -/
theorem updateContentPhase_cur (w : World) (v : UpdatePageInput)
    (pid : Nat) (cur : Option WikiPage) (tr : List RemoteCall)
    (cp : WikiPage) (h : v.content = none) (hcur : cur = some cp) :
    updateContentPhase w v pid cur tr =
      updateTagsPhase w v pid cp.content tr := by
  simp [updateContentPhase, h, hcur]

/-- Content absent, no retained page, and the id fetch finds nothing:
the phase fails with the not-found error after the one fetch. -/
theorem updateContentPhase_fetch_none (w : World) (v : UpdatePageInput)
    (pid : Nat) (cur : Option WikiPage) (tr : List RemoteCall)
    (h : v.content = none) (hcur : cur = none)
    (hf : (getPageById w pid).1 = none) :
    updateContentPhase w v pid cur tr =
      (handleToolError (.msg ("Page not found with ID: " ++ toString pid))
          "wikijs_update_page",
        tr ++ [.fetchById pid]) := by
  have hpair : getPageById w pid = (none, .fetchById pid) := by
    rw [getPageById_pair, hf]
  simp [updateContentPhase, h, hcur, hpair]

/-- Content absent, no retained page, and the id fetch finds the page:
its (truncated) content is reused. -/
theorem updateContentPhase_fetch_some (w : World) (v : UpdatePageInput)
    (pid : Nat) (cur : Option WikiPage) (tr : List RemoteCall)
    (cp : WikiPage) (h : v.content = none) (hcur : cur = none)
    (hf : (getPageById w pid).1 = some cp) :
    updateContentPhase w v pid cur tr =
      updateTagsPhase w v pid cp.content (tr ++ [.fetchById pid]) := by
  have hpair : getPageById w pid = (some cp, .fetchById pid) := by
    rw [getPageById_pair, hf]
  simp [updateContentPhase, h, hcur, hpair]

/-- What the reconciliation (content + tags phases) submits, given a
clean incoming trace: every submitted mutation carries the resolved id,
the intent's sparse metadata verbatim, the intent's tags when present
else the backfilled tags, and the intent's content verbatim when
present; with content present no single-page fetch happens; with tags
present no listing fetch happens; with tags absent any submission is
preceded by a listing fetch. -/
theorem updateContentPhase_submission (w : World) (v : UpdatePageInput)
    (pid : Nat) (cur : Option WikiPage) (tr : List RemoteCall)
    (htrU : ∀ params, RemoteCall.update params ∉ tr)
    (htrL : RemoteCall.listAll ∉ tr)
    (htrF : ∀ i, RemoteCall.fetchById i ∉ tr) :
    (∀ params,
        RemoteCall.update params ∈ (updateContentPhase w v pid cur tr).2 →
        params.id = pid ∧ params.title = v.title ∧
        params.description = v.description ∧
        params.isPublished = v.isPublished ∧
        params.tags = some (v.tags.getD (backfillTags w pid)) ∧
        (∀ c, v.content = some c → params.content = some c)) ∧
    ((∃ ts, v.tags = some ts) →
        RemoteCall.listAll ∉ (updateContentPhase w v pid cur tr).2) ∧
    ((∃ c, v.content = some c) →
        ∀ i, RemoteCall.fetchById i ∉ (updateContentPhase w v pid cur tr).2) ∧
    (v.tags = none →
        (∃ params,
          RemoteCall.update params ∈ (updateContentPhase w v pid cur tr).2) →
        RemoteCall.listAll ∈ (updateContentPhase w v pid cur tr).2) := by
  cases hc : v.content with
  | some c =>
      rw [updateContentPhase_present w v pid cur tr c hc]
      have T := updateTagsPhase_submission w v pid (some c) tr htrU htrL
      refine ⟨?_, T.2.1, ?_, fun htags _ => T.2.2.2 htags⟩
      · intro params hmem
        rw [T.1 params hmem]
        exact ⟨rfl, rfl, rfl, rfl, rfl, fun c' hcc => hcc⟩
      · intro _ i hmem
        exact htrF i (T.2.2.1 i hmem)
  | none =>
      cases hcur : cur with
      | some cp =>
          rw [updateContentPhase_cur w v pid (some cp) tr cp hc rfl]
          have T := updateTagsPhase_submission w v pid cp.content tr htrU htrL
          refine ⟨?_, T.2.1, ?_, fun htags _ => T.2.2.2 htags⟩
          · intro params hmem
            rw [T.1 params hmem]
            exact ⟨rfl, rfl, rfl, rfl, rfl,
              fun c' hcc => absurd hcc (by nofun)⟩
          · rintro ⟨c', hcc⟩
            exact absurd hcc (by nofun)
      | none =>
          cases hf : (getPageById w pid).1 with
          | none =>
              rw [updateContentPhase_fetch_none w v pid none tr hc rfl hf]
              refine ⟨?_, ?_, ?_, ?_⟩
              · intro params hmem
                rcases List.mem_append.1 hmem with h | h
                · exact absurd h (htrU params)
                · exact absurd (List.mem_singleton.1 h) (by nofun)
              · intro _ hmem
                rcases List.mem_append.1 hmem with h | h
                · exact htrL h
                · exact absurd (List.mem_singleton.1 h) (by nofun)
              · rintro ⟨c', hcc⟩
                exact absurd hcc (by nofun)
              · rintro - ⟨params, hmem⟩
                rcases List.mem_append.1 hmem with h | h
                · exact absurd h (htrU params)
                · exact absurd (List.mem_singleton.1 h) (by nofun)
          | some cp =>
              rw [updateContentPhase_fetch_some w v pid none tr cp hc rfl hf]
              have htrU' : ∀ params,
                  RemoteCall.update params ∉ tr ++ [RemoteCall.fetchById pid] := by
                intro params hmem
                rcases List.mem_append.1 hmem with h | h
                · exact htrU params h
                · exact absurd (List.mem_singleton.1 h) (by nofun)
              have htrL' :
                  RemoteCall.listAll ∉ tr ++ [RemoteCall.fetchById pid] := by
                intro hmem
                rcases List.mem_append.1 hmem with h | h
                · exact htrL h
                · exact absurd (List.mem_singleton.1 h) (by nofun)
              have T := updateTagsPhase_submission w v pid cp.content
                (tr ++ [RemoteCall.fetchById pid]) htrU' htrL'
              refine ⟨?_, T.2.1, ?_, fun htags _ => T.2.2.2 htags⟩
              · intro params hmem
                rw [T.1 params hmem]
                exact ⟨rfl, rfl, rfl, rfl, rfl,
                  fun c' hcc => absurd hcc (by nofun)⟩
              · rintro ⟨c', hcc⟩
                exact absurd hcc (by nofun)

/-- A path lookup always reports the `fetchByPath` call. -/
theorem getPageByPath_pair (w : World) (p l : String) :
    getPageByPath w p l = ((getPageByPath w p l).1, .fetchByPath p l) := rfl


/-- What `handleUpdatePage` submits: every update mutation in its trace
carries the intent's sparse metadata verbatim, the intent's tags when
present else the tags backfilled for the mutation's own id, and the
intent's content verbatim when present; content present implies no
single-page fetch, tags present implies no listing fetch, tags absent
implies every submission was preceded by a listing fetch; a directly
given (truthy) id is the id submitted. -/
theorem handleUpdatePage_submission (w : World) (args : UpdatePageRawArgs)
    (v : UpdatePageInput) (hp : parseUpdatePage args = .ok v) :
    (∀ params, RemoteCall.update params ∈ (handleUpdatePage w args).2 →
        params.title = v.title ∧ params.description = v.description ∧
        params.isPublished = v.isPublished ∧
        params.tags = some (v.tags.getD (backfillTags w params.id)) ∧
        (∀ c, v.content = some c → params.content = some c) ∧
        (∀ pid, jsNat v.id = some pid → params.id = pid)) ∧
    ((∃ ts, v.tags = some ts) →
        RemoteCall.listAll ∉ (handleUpdatePage w args).2) ∧
    ((∃ c, v.content = some c) →
        ∀ i, RemoteCall.fetchById i ∉ (handleUpdatePage w args).2) ∧
    (v.tags = none →
        (∃ params, RemoteCall.update params ∈ (handleUpdatePage w args).2) →
        RemoteCall.listAll ∈ (handleUpdatePage w args).2) := by
  have hnilU : ∀ params : UpdatePageParams,
      RemoteCall.update params ∉ ([] : List RemoteCall) :=
    fun p h => absurd h (List.not_mem_nil _)
  have hnilL : RemoteCall.listAll ∉ ([] : List RemoteCall) :=
    List.not_mem_nil _
  have hnilF : ∀ i : Nat,
      RemoteCall.fetchById i ∉ ([] : List RemoteCall) :=
    fun i h => absurd h (List.not_mem_nil _)
  simp only [handleUpdatePage, hp]
  by_cases hguard : ((jsNat v.id).isNone && (jsStr v.path).isNone) = true
  · rw [if_pos hguard]
    exact ⟨fun params hmem => absurd hmem (List.not_mem_nil _),
      fun _ hmem => absurd hmem (List.not_mem_nil _),
      fun _ i hmem => absurd hmem (List.not_mem_nil _),
      fun _ hex =>
        hex.elim fun params hmem => absurd hmem (List.not_mem_nil _)⟩
  · rw [if_neg hguard]
    cases hid : jsNat v.id with
    | some pid =>
        have P := updateContentPhase_submission w v pid none [] hnilU hnilL hnilF
        refine ⟨?_, P.2.1, P.2.2.1, P.2.2.2⟩
        intro params hmem
        obtain ⟨h1, h2, h3, h4, h5, h6⟩ := P.1 params hmem
        refine ⟨h2, h3, h4, ?_, h6, ?_⟩
        · rw [h1]
          exact h5
        · intro pid' hpid'
          injection hpid' with hpid''
          rw [← hpid'']
          exact h1
    | none =>
        cases hpath : jsStr v.path with
        | some p =>
            cases hfetch : (getPageByPath w p v.locale).1 with
            | none =>
                have hpair := getPageByPath_none w p v.locale hfetch
                simp only [hpair]
                refine ⟨?_, ?_, ?_, ?_⟩
                · intro params hmem
                  exact absurd (List.mem_singleton.1 hmem) (by nofun)
                · intro _ hmem
                  exact absurd (List.mem_singleton.1 hmem) (by nofun)
                · intro _ i hmem
                  exact absurd (List.mem_singleton.1 hmem) (by nofun)
                · rintro - ⟨params, hmem⟩
                  exact absurd (List.mem_singleton.1 hmem) (by nofun)
            | some page =>
                have hpair : getPageByPath w p v.locale =
                    (some page, .fetchByPath p v.locale) := by
                  rw [getPageByPath_pair, hfetch]
                simp only [hpair]
                by_cases hid0 : page.id = 0
                · rw [if_pos hid0]
                  refine ⟨?_, ?_, ?_, ?_⟩
                  · intro params hmem
                    exact absurd (List.mem_singleton.1 hmem) (by nofun)
                  · intro _ hmem
                    exact absurd (List.mem_singleton.1 hmem) (by nofun)
                  · intro _ i hmem
                    exact absurd (List.mem_singleton.1 hmem) (by nofun)
                  · rintro - ⟨params, hmem⟩
                    exact absurd (List.mem_singleton.1 hmem) (by nofun)
                · rw [if_neg hid0]
                  have htrU : ∀ params : UpdatePageParams,
                      RemoteCall.update params ∉
                        [RemoteCall.fetchByPath p v.locale] :=
                    fun params hmem =>
                      absurd (List.mem_singleton.1 hmem) (by nofun)
                  have htrL : RemoteCall.listAll ∉
                      [RemoteCall.fetchByPath p v.locale] :=
                    fun hmem => absurd (List.mem_singleton.1 hmem) (by nofun)
                  have htrF : ∀ i : Nat, RemoteCall.fetchById i ∉
                      [RemoteCall.fetchByPath p v.locale] :=
                    fun i hmem => absurd (List.mem_singleton.1 hmem) (by nofun)
                  have P := updateContentPhase_submission w v page.id
                    (some page) [RemoteCall.fetchByPath p v.locale]
                    htrU htrL htrF
                  refine ⟨?_, P.2.1, P.2.2.1, P.2.2.2⟩
                  intro params hmem
                  obtain ⟨h1, h2, h3, h4, h5, h6⟩ := P.1 params hmem
                  refine ⟨h2, h3, h4, ?_, h6, ?_⟩
                  · rw [h1]
                    exact h5
                  · intro pid' hpid'
                    exact absurd hpid' (by nofun)
        | none =>
            exact ⟨fun params hmem => absurd hmem (List.not_mem_nil _),
              fun _ hmem => absurd hmem (List.not_mem_nil _),
              fun _ i hmem => absurd hmem (List.not_mem_nil _),
              fun _ hex =>
                hex.elim fun params hmem => absurd hmem (List.not_mem_nil _)⟩

/-- A mutation whose content parameter is set carries it in the
dynamically built GraphQL variables. -/
theorem lookup_content_updateVariables (params : UpdatePageParams)
    (c : String) (h : params.content = some c) :
    (updateVariables params).lookup "content" = some (Json.str c) := by
  unfold updateVariables
  rw [h]
  rfl

/-- C5: for every update intent whose content is present — including
the empty string — every submitted mutation carries exactly that
content (also in the built GraphQL variables), and no single-page
content fetch happens during reconciliation. -/
theorem update_content_verbatim (w : World) (args : UpdatePageRawArgs)
    (v : UpdatePageInput) (c : String) (hp : parseUpdatePage args = .ok v)
    (hc : v.content = some c) :
    (∀ params, RemoteCall.update params ∈ (handleUpdatePage w args).2 →
        params.content = some c ∧
        (updateVariables params).lookup "content" = some (Json.str c)) ∧
    (∀ i, RemoteCall.fetchById i ∉ (handleUpdatePage w args).2) := by
  have M := handleUpdatePage_submission w args v hp
  constructor
  · intro params hmem
    have hcc := (M.1 params hmem).2.2.2.2.1 c hc
    exact ⟨hcc, lookup_content_updateVariables params c hcc⟩
  · exact M.2.2.1 ⟨c, hc⟩

/-- Witness for `update_content_verbatim`: updating page 1 with the
empty-string content and explicit tags submits exactly that content and
issues no single-page fetch. -/
theorem update_content_verbatim_witness :
    ((∀ params, RemoteCall.update params ∈
          (handleUpdatePage emptyWorld
            ⟨some 1, none, none, some "", none, none, none, some []⟩).2 →
        params.content = some "" ∧
        (updateVariables params).lookup "content" = some (Json.str "")) ∧
      (∀ i, RemoteCall.fetchById i ∉
          (handleUpdatePage emptyWorld
            ⟨some 1, none, none, some "", none, none, none, some []⟩).2)) ∧
    (handleUpdatePage emptyWorld
        ⟨some 1, none, none, some "", none, none, none, some []⟩).2 =
      [.update ⟨1, some "", none, none, none, some []⟩] :=
  ⟨update_content_verbatim emptyWorld
      ⟨some 1, none, none, some "", none, none, none, some []⟩
      ⟨some 1, none, "en", some "", none, none, none, some []⟩
      "" rfl rfl,
    rfl⟩

/-- When the resolved id is absent from the first 10000 listing
entries, the backfill comes up empty. -/
theorem backfillTags_not_found (w : World) (pid : Nat)
    (h : pid ∉ ((w.pages.map StoredPage.toListItem).take 10000).map
      (fun p => p.id)) :
    backfillTags w pid = [] := by
  unfold backfillTags
  rw [List.find?_eq_none.2]
  · rfl
  · intro x hx
    simp only [decide_eq_true_eq]
    intro heq
    exact h (List.mem_map.2 ⟨x, hx, heq⟩)

/-- C10: the tag backfill consults only the first 10000 entries of the
unfiltered listing; when the resolved id does not appear among those
entries, every submitted mutation carries the empty tag list — the
remote page's tags are cleared rather than preserved. -/
theorem tags_backfill_first_10000 :
    (∀ w : World, (getAllPages w).1 =
        (w.pages.map StoredPage.toListItem).take 10000) ∧
    (∀ (w : World) (args : UpdatePageRawArgs) (v : UpdatePageInput)
        (pid : Nat),
        parseUpdatePage args = .ok v → v.tags = none →
        jsNat v.id = some pid →
        pid ∉ ((w.pages.map StoredPage.toListItem).take 10000).map
          (fun p => p.id) →
        ∀ params, RemoteCall.update params ∈ (handleUpdatePage w args).2 →
          params.tags = some []) := by
  constructor
  · intro w
    rfl
  · intro w args v pid hp htags hid hnot params hmem
    have M := handleUpdatePage_submission w args v hp
    have h := (M.1 params hmem).2.2.2.1
    have hidp := (M.1 params hmem).2.2.2.2.2 pid hid
    rw [htags, hidp] at h
    rw [backfillTags_not_found w pid hnot] at h
    exact h

/-- Witness for `tags_backfill_first_10000`: updating id 5 on the empty
world with tags absent submits the empty tag list. -/
theorem tags_backfill_first_10000_witness :
    (∀ params, RemoteCall.update params ∈
        (handleUpdatePage emptyWorld
          ⟨some 5, none, none, some "c", none, none, none, none⟩).2 →
      params.tags = some []) ∧
    (handleUpdatePage emptyWorld
        ⟨some 5, none, none, some "c", none, none, none, none⟩).2 =
      [.listAll, .update ⟨5, some "c", none, none, none, some []⟩] :=
  ⟨tags_backfill_first_10000.2 emptyWorld
      ⟨some 5, none, none, some "c", none, none, none, none⟩
      ⟨some 5, none, "en", some "c", none, none, none, none⟩
      5 rfl rfl rfl (by decide),
    rfl⟩

/-- C2 (amended): with tags absent, every submitted mutation carries
the tags backfilled for its id from the FIRST 10000 entries of the
unfiltered listing (the page's current tags when it appears there,
empty when it carries none or does not appear), and the listing was
fetched; with tags present — including the empty array — exactly that
list is submitted and no listing fetch occurs. -/
theorem update_tags_reconciliation (w : World) (args : UpdatePageRawArgs)
    (v : UpdatePageInput) (hp : parseUpdatePage args = .ok v) :
    (v.tags = none →
        ∀ params, RemoteCall.update params ∈ (handleUpdatePage w args).2 →
          params.tags = some (backfillTags w params.id) ∧
          RemoteCall.listAll ∈ (handleUpdatePage w args).2) ∧
    (∀ ts, v.tags = some ts →
        (∀ params, RemoteCall.update params ∈ (handleUpdatePage w args).2 →
            params.tags = some ts) ∧
        RemoteCall.listAll ∉ (handleUpdatePage w args).2) := by
  have M := handleUpdatePage_submission w args v hp
  constructor
  · intro hnone params hmem
    have h := (M.1 params hmem).2.2.2.1
    rw [hnone] at h
    exact ⟨h, M.2.2.2 hnone ⟨params, hmem⟩⟩
  · intro ts hts
    refine ⟨?_, M.2.1 ⟨ts, hts⟩⟩
    intro params hmem
    have h := (M.1 params hmem).2.2.2.1
    rw [hts] at h
    exact h

/-- A one-page world whose page 1 carries one tag. -/
def taggedWorld : World :=
  { pages := [mkStored 1 "a" "en" ["a-tag"] (some "body")],
    searchResponse := ⟨[], [], 0⟩, nextId := 2 }

/-- Witness for `update_tags_reconciliation`: with tags absent the
backfilled tag list of page 1 is submitted after a listing fetch. -/
theorem update_tags_reconciliation_witness :
    (∀ params, RemoteCall.update params ∈
          (handleUpdatePage taggedWorld
            ⟨some 1, none, none, some "x", none, none, none, none⟩).2 →
        params.tags = some (backfillTags taggedWorld params.id) ∧
        RemoteCall.listAll ∈
          (handleUpdatePage taggedWorld
            ⟨some 1, none, none, some "x", none, none, none, none⟩).2) ∧
    (handleUpdatePage taggedWorld
        ⟨some 1, none, none, some "x", none, none, none, none⟩).2 =
      [.listAll, .update ⟨1, some "x", none, none, none, some ["a-tag"]⟩] :=
  ⟨(update_tags_reconciliation taggedWorld
      ⟨some 1, none, none, some "x", none, none, none, none⟩
      ⟨some 1, none, "en", some "x", none, none, none, none⟩ rfl).1 rfl,
    rfl⟩

/-- Filler pages with ids 1..10000 for the deep-listing world. -/
def filler (i : Nat) : StoredPage :=
  mkStored (i + 1) ("p" ++ toString (i + 1)) "en" [] none

/-- The page stored beyond the first 10000 listing entries, carrying a
tag that an update should preserve. -/
def keepPage : StoredPage := mkStored 10001 "keep" "en" ["keep-me"] none

/-- A world with 10001 pages: `keepPage` sits at position 10000 of the
listing, outside the backfill's 10000-entry window. -/
def deepWorld : World :=
  { pages := (List.range 10000).map filler ++ [keepPage],
    searchResponse := ⟨[], [], 0⟩, nextId := 10002 }

/-- No filler page carries id 10001 (listing projection). -/
theorem find_filler_items_none :
    (((List.range 10000).map filler).map StoredPage.toListItem).find?
      (fun p => p.id = 10001) = none := by
  apply List.find?_eq_none.2
  intro x hx
  simp only [List.mem_map] at hx
  obtain ⟨y, ⟨i, hi, hyi⟩, hxy⟩ := hx
  simp only [decide_eq_true_eq]
  intro heq
  rw [← hxy, ← hyi] at heq
  have : i + 1 = 10001 := heq
  have hlt : i < 10000 := List.mem_range.1 hi
  omega

/-- No filler page carries id 10001 (stored pages). -/
theorem find_filler_none :
    ((List.range 10000).map filler).find? (fun p => p.id = 10001) = none := by
  apply List.find?_eq_none.2
  intro x hx
  simp only [List.mem_map] at hx
  obtain ⟨i, hi, hxi⟩ := hx
  simp only [decide_eq_true_eq]
  intro heq
  rw [← hxi] at heq
  have : i + 1 = 10001 := heq
  have hlt : i < 10000 := List.mem_range.1 hi
  omega

/-- The backfill misses `keepPage`: it sits past the 10000-entry
window. -/
theorem backfillTags_deepWorld : backfillTags deepWorld 10001 = [] := by
  unfold backfillTags
  have hmaps : deepWorld.pages.map StoredPage.toListItem =
      ((List.range 10000).map filler).map StoredPage.toListItem ++
        [keepPage.toListItem] := by
    simp [deepWorld]
  have hlen : (((List.range 10000).map filler).map
      StoredPage.toListItem).length = 10000 := by simp
  rw [hmaps, List.take_left' hlen, find_filler_items_none]
  rfl

/-- Counterexample to C2 as stated: updating page 10001 of `deepWorld`
(tags absent) submits the EMPTY tag list although the page's current
tag set is `["keep-me"]` — the backfill looked only at the first 10000
listing entries. -/
theorem update_tags_clearing_counterexample :
    (handleUpdatePage deepWorld
        ⟨some 10001, none, none, some "new", none, none, none, none⟩).2 =
      [.listAll, .update ⟨10001, some "new", none, none, none, some []⟩] ∧
    deepWorld.pages.find? (fun p => p.id = 10001) = some keepPage ∧
    keepPage.tags = ["keep-me"] ∧
    some ([] : List String) ≠ some ["keep-me"] := by
  refine ⟨?_, ?_, rfl, by decide⟩
  · have h0 : handleUpdatePage deepWorld
        ⟨some 10001, none, none, some "new", none, none, none, none⟩ =
        updateContentPhase deepWorld
          ⟨some 10001, none, "en", some "new", none, none, none, none⟩
          10001 none [] := rfl
    rw [h0,
      updateContentPhase_present deepWorld
        ⟨some 10001, none, "en", some "new", none, none, none, none⟩
        10001 none [] "new" rfl,
      updateTagsPhase_absent deepWorld
        ⟨some 10001, none, "en", some "new", none, none, none, none⟩
        10001 (some "new") [] rfl,
      updateSubmit_eq, backfillTags_deepWorld]
    rfl
  · rw [show deepWorld.pages =
        (List.range 10000).map filler ++ [keepPage] from rfl,
      List.find?_append, find_filler_none]
    rfl

/-- A 100001-character content, one character past `CHARACTER_LIMIT`. -/
def bigContent : String := String.mk (List.replicate 100001 'a')

/-- The stored page carrying `bigContent`. -/
def bigPage : StoredPage := mkStored 1 "big/page" "en" [] (some bigContent)

/-- A world holding only `bigPage`. -/
def bigWorld : World :=
  { pages := [bigPage], searchResponse := ⟨[], [], 0⟩, nextId := 2 }

/-- `bigContent` has length 100001. -/
theorem bigContent_length : bigContent.length = 100001 := by
  have h : bigContent.length = (List.replicate 100001 'a').length := rfl
  rw [h, List.length_replicate]

/-- The 100000-character cut of `bigContent` has exactly the limit
length. -/
theorem jsSubstring_bigContent_length :
    (jsSubstring bigContent CHARACTER_LIMIT).length = 100000 := by
  have h1 : (jsSubstring bigContent CHARACTER_LIMIT).length =
      min CHARACTER_LIMIT bigContent.data.length := List.length_take _ _
  have h2 : bigContent.data.length = 100001 := List.length_replicate _ _
  rw [h1, h2]
  decide

/-- An id fetch of a page whose stored content exceeds the limit
returns the content cut to the first `CHARACTER_LIMIT` characters with
the appended notice naming the original length. -/
theorem getPageById_trunc (w : World) (id : Nat) (page : StoredPage)
    (c : String) (hfind : w.pages.find? (fun p => p.id = id) = some page)
    (hcontent : page.content = some c)
    (hlen : c.length > CHARACTER_LIMIT) :
    getPageById w id =
      (some { page.toWikiPage with
          content := some (jsSubstring c CHARACTER_LIMIT ++
            truncNoticeById c.length) },
        .fetchById id) := by
  have hne : c ≠ "" := by
    intro h
    rw [h] at hlen
    exact absurd hlen (by decide)
  simp [getPageById, hfind, StoredPage.toWikiPage, truncateContent,
    hcontent, hne, hlen]

/-- A read by (truthy) id issues exactly the one id fetch, whatever it
finds. -/
theorem handleGetPage_trace_id (w : World) (args : PageRefRawArgs)
    (v : PageRefInput) (id : Nat) (hp : parsePageRef args = .ok v)
    (hid : jsNat v.id = some id) :
    (handleGetPage w args).2 = [.fetchById id] := by
  simp only [handleGetPage, hp, hid]
  cases hx : (getPageById w id).1 with
  | none =>
      have hpair : getPageById w id = (none, .fetchById id) := by
        rw [getPageById_pair, hx]
      simp [hpair]
  | some pg =>
      have hpair : getPageById w id = (some pg, .fetchById id) := by
        rw [getPageById_pair, hx]
      simp [hpair]

/-- C8: reading by id a page whose stored content exceeds the
`CHARACTER_LIMIT` threshold returns the stored content cut to exactly
the threshold length with the appended notice naming the original
length, and the read issues no mutation — its remote-call trace is the
single id fetch. -/
theorem read_by_id_truncates (w : World) (id : Nat) (page : StoredPage)
    (c : String) (args : PageRefRawArgs) (v : PageRefInput)
    (hfind : w.pages.find? (fun p => p.id = id) = some page)
    (hcontent : page.content = some c)
    (hlen : c.length > CHARACTER_LIMIT)
    (hp : parsePageRef args = .ok v) (hid : jsNat v.id = some id) :
    getPageById w id =
      (some { page.toWikiPage with
          content := some (jsSubstring c CHARACTER_LIMIT ++
            truncNoticeById c.length) },
        .fetchById id) ∧
    (jsSubstring c CHARACTER_LIMIT).length = CHARACTER_LIMIT ∧
    (handleGetPage w args).2 = [.fetchById id] := by
  refine ⟨getPageById_trunc w id page c hfind hcontent hlen, ?_,
    handleGetPage_trace_id w args v id hp hid⟩
  have h1 : (jsSubstring c CHARACTER_LIMIT).length =
      min CHARACTER_LIMIT c.data.length := List.length_take _ _
  have h2 : c.length = c.data.length := rfl
  rw [h1]
  rw [h2] at hlen
  omega

/-- Witness for `read_by_id_truncates`: reading page 1 of `bigWorld`
(stored content 100001 chars) truncates to the 100000-char limit with
the notice, over a single fetch. -/
theorem read_by_id_truncates_witness :
    (getPageById bigWorld 1 =
      (some { bigPage.toWikiPage with
          content := some (jsSubstring bigContent CHARACTER_LIMIT ++
            truncNoticeById bigContent.length) },
        .fetchById 1) ∧
    (jsSubstring bigContent CHARACTER_LIMIT).length = CHARACTER_LIMIT ∧
    (handleGetPage bigWorld ⟨some 1, none, none⟩).2 = [.fetchById 1]) :=
  read_by_id_truncates bigWorld 1 bigPage bigContent
    ⟨some 1, none, none⟩ ⟨some 1, none, "en"⟩ rfl rfl
    (by rw [bigContent_length]; decide) rfl rfl

/-- C1 (failing input): a metadata-only update (`isPublished := true`,
content absent) of page 1 of `bigWorld`, whose stored content has
100001 characters. The reconciler reuses the DISPLAY-TRUNCATED fetch
result, so the mutation submits the 100000-character cut plus the
truncation notice — not the page's stored content, which the tool's own
description promises to preserve. -/
theorem update_truncation_bug :
    (handleUpdatePage bigWorld
        ⟨some 1, none, none, none, none, none, some true, none⟩).2 =
      [.fetchById 1, .listAll,
        .update ⟨1,
          some (jsSubstring bigContent CHARACTER_LIMIT ++
            truncNoticeById bigContent.length),
          none, none, some true, some []⟩] ∧
    bigPage.content = some bigContent ∧
    some (jsSubstring bigContent CHARACTER_LIMIT ++
        truncNoticeById bigContent.length) ≠ some bigContent := by
  refine ⟨?_, rfl, ?_⟩
  · have htrunc := getPageById_trunc bigWorld 1 bigPage bigContent rfl rfl
      (by rw [bigContent_length]; decide)
    have hf : (getPageById bigWorld 1).1 =
        some { bigPage.toWikiPage with
          content := some (jsSubstring bigContent CHARACTER_LIMIT ++
            truncNoticeById bigContent.length) } := by
      rw [htrunc]
    have h0 : handleUpdatePage bigWorld
        ⟨some 1, none, none, none, none, none, some true, none⟩ =
        updateContentPhase bigWorld
          ⟨some 1, none, "en", none, none, none, some true, none⟩
          1 none [] := rfl
    rw [h0,
      updateContentPhase_fetch_some bigWorld
        ⟨some 1, none, "en", none, none, none, some true, none⟩
        1 none [] _ rfl rfl hf,
      updateTagsPhase_absent bigWorld
        ⟨some 1, none, "en", none, none, none, some true, none⟩
        1 _ _ rfl,
      updateSubmit_eq]
    rfl
  · intro h
    injection h with h'
    have hlena := congrArg String.length h'
    rw [String.length_append, jsSubstring_bigContent_length,
      bigContent_length] at hlena
    have hL : (truncNoticeById 100001).length = 93 := by decide
    rw [hL] at hlena
    omega

/-- The two envelope shapes a handler may return: a `successResponse`
payload (`{success: true, ...}`) or the `handleToolError` failure
payload (`{success: false, error, tool}`) tagged with the handler's own
tool name. -/
def isGoodEnvelope (toolName : String) (e : Envelope) : Prop :=
  (∃ data, e = successResponse data) ∨
  (∃ err, e = handleToolError err toolName)

/-- Every `wikijs_create_page` response is a well-formed envelope. -/
theorem goodEnvelope_create (w : World) (args : CreatePageRawArgs) :
    isGoodEnvelope "wikijs_create_page" (handleCreatePage w args).1 := by
  unfold handleCreatePage isGoodEnvelope
  repeat' split
  all_goals first
    | exact Or.inl ⟨_, rfl⟩
    | exact Or.inr ⟨_, rfl⟩

/-- Every `wikijs_get_page` response is a well-formed envelope. -/
theorem goodEnvelope_get (w : World) (args : PageRefRawArgs) :
    isGoodEnvelope "wikijs_get_page" (handleGetPage w args).1 := by
  unfold handleGetPage isGoodEnvelope
  repeat' split
  all_goals try exact Or.inr ⟨_, rfl⟩
  all_goals dsimp only
  all_goals repeat' split
  all_goals first
    | exact Or.inl ⟨_, rfl⟩
    | exact Or.inr ⟨_, rfl⟩

/-- Every `wikijs_list_pages` response is a well-formed envelope. -/
theorem goodEnvelope_list (w : World) (args : ListPagesRawArgs) :
    isGoodEnvelope "wikijs_list_pages" (handleListPages w args).1 := by
  unfold handleListPages isGoodEnvelope
  repeat' split
  all_goals first
    | exact Or.inl ⟨_, rfl⟩
    | exact Or.inr ⟨_, rfl⟩

/-- Every `wikijs_search_pages` response is a well-formed envelope. -/
theorem goodEnvelope_search (w : World) (args : SearchPagesRawArgs) :
    isGoodEnvelope "wikijs_search_pages" (handleSearchPages w args).1 := by
  unfold handleSearchPages isGoodEnvelope
  repeat' split
  all_goals first
    | exact Or.inl ⟨_, rfl⟩
    | exact Or.inr ⟨_, rfl⟩

/-- Every `wikijs_update_page` response is a well-formed envelope. -/
theorem goodEnvelope_update (w : World) (args : UpdatePageRawArgs) :
    isGoodEnvelope "wikijs_update_page" (handleUpdatePage w args).1 := by
  unfold handleUpdatePage updateContentPhase updateTagsPhase updateSubmit
    isGoodEnvelope
  repeat' split
  all_goals first
    | exact Or.inl ⟨_, rfl⟩
    | exact Or.inr ⟨_, rfl⟩

/-- Every `wikijs_delete_page` response is a well-formed envelope. -/
theorem goodEnvelope_delete (w : World) (args : PageRefRawArgs) :
    isGoodEnvelope "wikijs_delete_page" (handleDeletePage w args).1 := by
  unfold handleDeletePage deleteResolved isGoodEnvelope
  repeat' split
  all_goals first
    | exact Or.inl ⟨_, rfl⟩
    | exact Or.inr ⟨_, rfl⟩

/-- Every `wikijs_move_page` response is a well-formed envelope. -/
theorem goodEnvelope_move (w : World) (args : MovePageRawArgs) :
    isGoodEnvelope "wikijs_move_page" (handleMovePage w args).1 := by
  unfold handleMovePage moveResolved isGoodEnvelope
  repeat' split
  all_goals first
    | exact Or.inl ⟨_, rfl⟩
    | exact Or.inr ⟨_, rfl⟩

/-- Any string built on the `Validation error in ` prefix starts with
`V`. -/
theorem validation_head (s t u : String) :
    ((("Validation error in " ++ s) ++ t) ++ u).data.head? = some 'V' := by
  cases s
  cases t
  cases u
  rfl

/-- C7: every one of the seven operation handlers returns an envelope —
on success the `{success: true, ...}` payload, on any failure the
`{success: false, error, tool}` payload tagged with the handler's own
tool name — never raising past the dispatcher boundary (the handlers
are total functions into `Envelope`); and a schema-validation failure
renders as the field-path-annotated issue list, distinct from any
single-message failure not starting with that format's leading
character. -/
theorem handlers_return_envelopes :
    (∀ (w : World) (args : CreatePageRawArgs),
        isGoodEnvelope "wikijs_create_page" (handleCreatePage w args).1) ∧
    (∀ (w : World) (args : PageRefRawArgs),
        isGoodEnvelope "wikijs_get_page" (handleGetPage w args).1) ∧
    (∀ (w : World) (args : ListPagesRawArgs),
        isGoodEnvelope "wikijs_list_pages" (handleListPages w args).1) ∧
    (∀ (w : World) (args : SearchPagesRawArgs),
        isGoodEnvelope "wikijs_search_pages" (handleSearchPages w args).1) ∧
    (∀ (w : World) (args : UpdatePageRawArgs),
        isGoodEnvelope "wikijs_update_page" (handleUpdatePage w args).1) ∧
    (∀ (w : World) (args : PageRefRawArgs),
        isGoodEnvelope "wikijs_delete_page" (handleDeletePage w args).1) ∧
    (∀ (w : World) (args : MovePageRawArgs),
        isGoodEnvelope "wikijs_move_page" (handleMovePage w args).1) ∧
    (∀ (issues : List ZodIssue) (toolName m : String),
        m.data.head? ≠ some 'V' →
        renderToolError (.zod issues) toolName ≠
          renderToolError (.msg m) toolName) :=
  ⟨goodEnvelope_create, goodEnvelope_get, goodEnvelope_list,
    goodEnvelope_search, goodEnvelope_update, goodEnvelope_delete,
    goodEnvelope_move, by
      intro issues toolName m hm h
      apply hm
      have h1 : m.data.head? =
          (renderToolError (.msg m) toolName).data.head? := rfl
      rw [h1, ← h]
      exact validation_head toolName ":\n" _⟩

/-- Witness for `handlers_return_envelopes`: a concrete validation
rendering differs from a concrete single-message rendering. -/
theorem handlers_return_envelopes_witness :
    renderToolError (.zod [⟨["id"], "Required"⟩]) "wikijs_update_page" ≠
      renderToolError (.msg "boom") "wikijs_update_page" :=
  handlers_return_envelopes.2.2.2.2.2.2.2 [⟨["id"], "Required"⟩]
    "wikijs_update_page" "boom" (by decide)
